import Mathlib

/-!
A verification development for the `TwitchApi` client class
(src/TwitchApi.py), a wrapper around the Twitch Helix REST API and the
Twitch GraphQL endpoint.

The Python code is shallowly embedded: every network call
(`requests.get(...).json()` / `requests.post(...).json()`) is modelled by
an input of type `Except PyExc body`, where `Except.error e` means the
call (or the JSON decoding of its response) raised the Python exception
`e`, and `Except.ok b` means it returned the parsed JSON body `b`.
Each method becomes a pure function of those inputs returning
`Except PyExc result`: `Except.error e` in the result means the method
lets the exception `e` escape to its caller, `Except.ok v` means it
returns the value `v`.

JSON bodies are modelled by structures whose fields are `Option`-valued
where the Python code indexes a key that the response may lack
(a `none` read corresponds to a `KeyError`).
-/

set_option autoImplicit false

/-- The kinds of Python exception relevant to the control flow of
`TwitchApi`.  `get_top_streams` catches exactly
`(SSLError, ConnectionError, KeyError)`; the other methods use bare
`except:` clauses, which catch every kind. -/
inductive PyExc where
  | sslError
  | connectionError
  | keyError
  | timeout
  | jsonDecodeError
  | other
  deriving Repr, DecidableEq

/-- One element of the `"data"` array of the Helix `/streams` response, with
the fields the Python code reads (`get_top_streams` reads
`viewer_count`; `get_stream_details` reads the rest). -/
structure StreamJson where
  user_name? : Option String
  user_id? : Option String
  viewer_count : Nat
  title? : Option String
  thumbnail_url? : Option String
  started_at? : Option String
  deriving Repr, DecidableEq

/-- The parsed body of the Helix `/streams` response.  `data? = none`
models a body without a `"data"` key, so that `r["data"]` raises
`KeyError`. -/
structure StreamsBody where
  data? : Option (List StreamJson)
  deriving Repr, DecidableEq

/-- The exception classes named in the `except` clause of
`get_top_streams`: `(SSLError, ConnectionError, KeyError)`. -/
def caughtByTopStreams : PyExc → Bool
  | .sslError => true
  | .connectionError => true
  | .keyError => true
  | _ => false

/-- `TwitchApi.get_top_streams` (src/TwitchApi.py lines 67-84): fetches the
`/streams` response and returns `[s for s in r["data"] if s["viewer_count"] > 100]`;
`SSLError`, `ConnectionError` and `KeyError` (a missing `"data"` key)
yield `[]`, any other exception propagates. -/
def get_top_streams (resp : Except PyExc StreamsBody) : Except PyExc (List StreamJson) :=
  match resp with
  | .error e => if caughtByTopStreams e then .ok [] else .error e
  | .ok r =>
    match r.data? with
    | none => .ok []
    | some ds => .ok (ds.filter (fun s => 100 < s.viewer_count))

/-- The parsed body of the Helix `/users/follows` response.
`total? = none` models a body without a `"total"` key. -/
structure FollowsBody where
  total? : Option Nat
  deriving Repr, DecidableEq

/-- The parsed body of the Helix `/videos` response.  `data? = none`
models a body without a `"data"` key; the code only takes `len(r["data"])`,
so the elements are irrelevant and each video is modelled as `Unit`. -/
structure VideosBody where
  data? : Option (List Unit)
  deriving Repr, DecidableEq

/-- The body of the `try` block of `get_follower_count`
(src/TwitchApi.py lines 151-172) before the handler: issue the call and
read `r["total"]`.  An absent key is a `KeyError`. -/
def follower_request (resp : Except PyExc FollowsBody) : Except PyExc Nat :=
  match resp with
  | .error e => .error e
  | .ok b =>
    match b.total? with
    | none => .error .keyError
    | some t => .ok t

/-- `TwitchApi.get_follower_count`: the bare `except:` handler turns any
exception from the request-and-read sequence into the sentinel
`10000000`. -/
def get_follower_count (resp : Except PyExc FollowsBody) : Except PyExc Nat :=
  match follower_request resp with
  | .error _ => .ok 10000000
  | .ok t => .ok t

/-- The body of the `try` block of `get_video_count`
(src/TwitchApi.py lines 128-149) before the handler: issue the call and
compute `len(r["data"])`. -/
def video_request (resp : Except PyExc VideosBody) : Except PyExc Nat :=
  match resp with
  | .error e => .error e
  | .ok b =>
    match b.data? with
    | none => .error .keyError
    | some vs => .ok vs.length

/-- `TwitchApi.get_video_count`: the bare `except:` handler turns any
exception from the request-and-read sequence into the sentinel `10000`. -/
def get_video_count (resp : Except PyExc VideosBody) : Except PyExc Nat :=
  match video_request resp with
  | .error _ => .ok 10000
  | .ok n => .ok n

/-- Reading a key that may be absent: `none` raises `KeyError`. -/
def keyRead {α : Type} : Option α → Except PyExc α
  | some a => .ok a
  | none => .error .keyError

/-- Python's `str.lower()`, modelled as character-wise lowercasing (the
ASCII behaviour the code relies on for login keys). -/
def pyLower (s : String) : String := ⟨s.data.map Char.toLower⟩

/-- One value of the `stream_info` dictionary built by
`get_stream_details` (src/TwitchApi.py lines 96-106); the four trailing
fields start absent and are attached while walking the `/users`
response. -/
structure StreamInfo where
  user_id : String
  viewer_count : Nat
  title : String
  thumbnail : String
  started : String
  display : String
  broadcaster_type? : Option String := none
  channel_views? : Option Nat := none
  followers? : Option Nat := none
  videos? : Option Nat := none
  deriving Repr, DecidableEq

/-- The `stream_info` dictionary, as an association list in insertion
order (Python dict semantics: first insertion fixes the position, a later
assignment to the same key overwrites the value in place). -/
abbrev InfoMap := List (String × StreamInfo)

/-- Dictionary lookup `m[k]` (first matching key). -/
def mapLookup : InfoMap → String → Option StreamInfo
  | [], _ => none
  | (k', v') :: rest, k => if k' = k then some v' else mapLookup rest k

/-- Dictionary assignment `m[k] = v`: overwrite in place if the key is
present, append otherwise. -/
def mapInsert : InfoMap → String → StreamInfo → InfoMap
  | [], k, v => [(k, v)]
  | (k', v') :: rest, k, v =>
    if k' = k then (k, v) :: rest else (k', v') :: mapInsert rest k v

/-- One iteration of the dict comprehension of lines 96-106: read the
summary fields of stream `s` (a missing key raises `KeyError`) and build
the entry keyed by the lower-cased user name. -/
def initEntry (s : StreamJson) : Except PyExc (String × StreamInfo) :=
  match keyRead s.user_name? with
  | .error e => .error e
  | .ok name =>
    match keyRead s.user_id? with
    | .error e => .error e
    | .ok uid =>
      match keyRead s.title? with
      | .error e => .error e
      | .ok title =>
        match keyRead s.thumbnail_url? with
        | .error e => .error e
        | .ok thumb =>
          match keyRead s.started_at? with
          | .error e => .error e
          | .ok started =>
            .ok (pyLower name,
              { user_id := uid, viewer_count := s.viewer_count, title := title,
                thumbnail := thumb, started := started, display := pyLower name })

/-- The full dict comprehension of lines 96-106, left to right over the
input streams, accumulating into `m`.  It runs before the `try` block,
so its exceptions propagate out of `get_stream_details`. -/
def buildInfo (m : InfoMap) : List StreamJson → Except PyExc InfoMap
  | [] => .ok m
  | s :: rest =>
    match initEntry s with
    | .error e => .error e
    | .ok kv => buildInfo (mapInsert m kv.1 kv.2) rest

/-- One element of the `"data"` array of the Helix `/users` response, with
the fields `get_stream_details` reads. -/
structure UserRec where
  login? : Option String
  broadcaster_type? : Option String
  view_count? : Option Nat
  deriving Repr, DecidableEq

/-- The parsed body of the Helix `/users` response; `data? = none` models
a body without a `"data"` key. -/
structure UsersBody where
  data? : Option (List UserRec)
  deriving Repr, DecidableEq

/-- The network environment `get_stream_details` runs against: the
outcome of the bulk `/users` call and, per user id, the outcomes of the
`/users/follows` and `/videos` calls it may issue. -/
structure DetailsEnv where
  usersResp : Except PyExc UsersBody
  followsResp : String → Except PyExc FollowsBody
  videosResp : String → Except PyExc VideosBody

/-- One iteration of the `for result in r["data"]` loop of lines 116-123:
look the record's login up in `stream_info` (a mismatch raises
`KeyError`), attach broadcaster type and channel views, and when the
broadcaster type is the empty (unpartnered) string also attach the
follower and video counts. -/
def processUser (env : DetailsEnv) (m : InfoMap) (u : UserRec) : Except PyExc InfoMap :=
  match keyRead u.login? with
  | .error e => .error e
  | .ok login =>
    match keyRead (mapLookup m login) with
    | .error e => .error e
    | .ok info =>
      match keyRead u.broadcaster_type? with
      | .error e => .error e
      | .ok btype =>
        match keyRead u.view_count? with
        | .error e => .error e
        | .ok views =>
          if btype = "" then
            match get_follower_count (env.followsResp info.user_id) with
            | .error e => .error e
            | .ok f =>
              match get_video_count (env.videosResp info.user_id) with
              | .error e => .error e
              | .ok v =>
                .ok (mapInsert m login
                  { info with
                      broadcaster_type? := some btype,
                      channel_views? := some views,
                      followers? := some f, videos? := some v })
          else
            .ok (mapInsert m login
              { info with
                  broadcaster_type? := some btype,
                  channel_views? := some views })

/-- The whole `for result in r["data"]` loop. -/
def processAll (env : DetailsEnv) : InfoMap → List UserRec → Except PyExc InfoMap
  | m, [] => .ok m
  | m, u :: rest =>
    match processUser env m u with
    | .error e => .error e
    | .ok m' => processAll env m' rest

/-- The body of the `try` block of `get_stream_details` (lines 109-123):
the bulk `/users` call, the `r["data"]` read and the enrichment loop. -/
def usersPhase (env : DetailsEnv) (m : InfoMap) : Except PyExc InfoMap :=
  match env.usersResp with
  | .error e => .error e
  | .ok r =>
    match keyRead r.data? with
    | .error e => .error e
    | .ok recs => processAll env m recs

/-- `TwitchApi.get_stream_details` (src/TwitchApi.py lines 86-126): build
`stream_info` from the input streams (outside the `try`: exceptions here
propagate), then run the users phase; any exception in that phase hits
the bare `except:` and the method returns the empty dictionary. -/
def get_stream_details (env : DetailsEnv) (streams : List StreamJson) :
    Except PyExc InfoMap :=
  match buildInfo [] streams with
  | .error e => .error e
  | .ok m =>
    match usersPhase env m with
    | .error _ => .ok []
    | .ok m2 => .ok m2

/-- The logins carried by a list of `/users` records, in order. -/
def loginsOf (recs : List UserRec) : List String :=
  recs.filterMap (fun u => u.login?)

/-- One panel of the GraphQL `ChannelPanels` response: its `linkURL` and
`description` values, `none` standing for JSON `null`. -/
structure Panel where
  linkURL? : Option String
  description? : Option String
  deriving Repr, DecidableEq

/-- The parsed body of the GraphQL call, reduced to the one path the code
walks: `panels? = none` models any body on which
`r[0]["data"]["user"]["panels"]` fails (the expected panel structure is
missing), which raises outside the `try` block. -/
structure PanelsBody where
  panels? : Option (List Panel)
  deriving Repr, DecidableEq

/-- The links one panel contributes in lines 211-220: its `linkURL` when
truthy (non-null, non-empty), then every match of the URL pattern in its
`description` when that is truthy.  The pattern matcher itself is the
external collaborator `findUrls`. -/
def panelLinks (findUrls : String → List String) (p : Panel) : List String :=
  (match p.linkURL? with
   | some u => if u = "" then [] else [u]
   | none => []) ++
  (match p.description? with
   | some d => if d = "" then [] else findUrls d
   | none => [])

/-- The `for panel in ...` loop of lines 211-220, appending each panel's
links in order. -/
def collectLinks (findUrls : String → List String) : List Panel → List String
  | [] => []
  | p :: rest => panelLinks findUrls p ++ collectLinks findUrls rest

/-- `TwitchApi.get_panel_links` (src/TwitchApi.py lines 174-222): the
`try` covers only the POST and its JSON decoding (any exception there
yields `[]`); the traversal `r[0]["data"]["user"]["panels"]` runs after
the `try`, so a well-formed-JSON body without the expected structure
raises; on success the collected links are deduplicated
(`list(set(links))`). -/
def get_panel_links (findUrls : String → List String)
    (resp : Except PyExc PanelsBody) : Except PyExc (List String) :=
  match resp with
  | .error _ => .ok []
  | .ok b =>
    match b.panels? with
    | none => .error .keyError
    | some panels => .ok (collectLinks findUrls panels).dedup

/-- The parsed body of the `oauth2/validate` response, reduced to the one
test the code makes: `"client_id" in r`. -/
structure ValidateBody where
  has_client_id : Bool
  deriving Repr, DecidableEq

/-- The parsed body of the `oauth2/token` (refresh) response;
`access_token? = none` models a body without an `"access_token"` key. -/
structure TokenBody where
  access_token? : Option String
  deriving Repr, DecidableEq

/-- The environment `get_token` runs against: the stored
`ACCESS_TOKEN` value (`none` when unset) and the outcomes of the
validation and refresh calls, would they be issued. -/
structure TokenEnv where
  saved_token? : Option String
  validateResp : Except PyExc ValidateBody
  tokenResp : Except PyExc TokenBody

/-- The outcome of `get_token`: a returned token, or the `sys.exit`
diagnostic that terminates the process. -/
inductive TokenResult where
  | token (t : String)
  | exit (msg : String)
  deriving Repr, DecidableEq

/-- The observable side effects of one `get_token` run: how many
validation calls and refresh (token-request) calls were issued, and the
value, if any, persisted to the credential store by `set_key`. -/
structure TokenEffects where
  validate_calls : Nat
  refresh_calls : Nat
  persisted? : Option String
  deriving Repr, DecidableEq

/-- Lines 52-65 of `get_token`: request a fresh token; persist and return
it when the response carries `access_token`, otherwise
`sys.exit("Unable to generate access token")`.  Transport or decoding
failures of the POST are not caught and propagate. -/
def refreshToken (env : TokenEnv) (validates : Nat) :
    Except PyExc (TokenResult × TokenEffects) :=
  match env.tokenResp with
  | .error e => .error e
  | .ok b =>
    match b.access_token? with
    | some tok => .ok (.token tok, ⟨validates, 1, some tok⟩)
    | none => .ok (.exit "Unable to generate access token", ⟨validates, 1, none⟩)

/-- `TwitchApi.get_token` (src/TwitchApi.py lines 36-65): when a stored
token is truthy (present and non-empty), validate it and return it
unchanged if the validation body contains `client_id`; otherwise fall
through to the refresh path.  Validation transport failures are not
caught and propagate. -/
def get_token (env : TokenEnv) : Except PyExc (TokenResult × TokenEffects) :=
  match env.saved_token? with
  | some t =>
    if t = "" then refreshToken env 0
    else
      match env.validateResp with
      | .error e => .error e
      | .ok vb =>
        if vb.has_client_id then .ok (.token t, ⟨1, 0, none⟩)
        else refreshToken env 1
  | none => refreshToken env 0

/-! ### Concrete inputs used by witnesses and counterexamples -/

/-- A stream with exactly 100 viewers. -/
def stream100 : StreamJson :=
  { user_name? := some "a", user_id? := some "1", viewer_count := 100,
    title? := some "t", thumbnail_url? := some "u", started_at? := some "d" }

/-- A stream with exactly 101 viewers. -/
def stream101 : StreamJson :=
  { user_name? := some "b", user_id? := some "2", viewer_count := 101,
    title? := some "t", thumbnail_url? := some "u", started_at? := some "d" }

/-- A `/streams` body whose `"data"` array holds the two boundary
streams. -/
def boundaryBody : StreamsBody := ⟨some [stream100, stream101]⟩

/-- A stream record whose body lacks the `"user_name"` key. -/
def badStream : StreamJson :=
  { user_name? := none, user_id? := some "1", viewer_count := 500,
    title? := some "t", thumbnail_url? := some "u", started_at? := some "d" }

/-- An environment whose bulk `/users` call succeeds with no records. -/
def envIdle : DetailsEnv :=
  { usersResp := .ok ⟨some []⟩,
    followsResp := fun _ => .error .timeout,
    videosResp := fun _ => .error .timeout }

/-- A well-formed input stream for the duplicate-login scenario. -/
def dupStream : StreamJson :=
  { user_name? := some "alice", user_id? := some "7", viewer_count := 500,
    title? := some "t", thumbnail_url? := some "u", started_at? := some "d" }

/-- An environment whose `/users` response lists the same login twice:
first with the empty (unpartnered) broadcaster type, then with
`"partner"`. -/
def dupEnv : DetailsEnv :=
  { usersResp := .ok ⟨some [⟨some "alice", some "", some 3⟩,
      ⟨some "alice", some "partner", some 3⟩]⟩,
    followsResp := fun _ => .ok ⟨some 42⟩,
    videosResp := fun _ => .ok ⟨some [(), ()]⟩ }

/-- The entry `get_stream_details dupEnv [dupStream]` produces: the second
pass overwrote the broadcaster type with `"partner"` while the follower
and video counts attached by the first pass survive. -/
def dupInfo : StreamInfo :=
  { user_id := "7", viewer_count := 500, title := "t", thumbnail := "u",
    started := "d", display := "alice", broadcaster_type? := some "partner",
    channel_views? := some 3, followers? := some 42, videos? := some 2 }

/-- An environment with one partnered and one unpartnered user record,
logins distinct. -/
def twoTierEnv : DetailsEnv :=
  { usersResp := .ok ⟨some [⟨some "alice", some "partner", some 9⟩,
      ⟨some "bob", some "", some 3⟩]⟩,
    followsResp := fun _ => .ok ⟨some 42⟩,
    videosResp := fun _ => .ok ⟨some [(), ()]⟩ }

/-- Two well-formed input streams for the two-tier scenario. -/
def twoTierStreams : List StreamJson :=
  [{ user_name? := some "alice", user_id? := some "7", viewer_count := 500,
     title? := some "t", thumbnail_url? := some "u", started_at? := some "d" },
   { user_name? := some "bob", user_id? := some "8", viewer_count := 300,
     title? := some "s", thumbnail_url? := some "v", started_at? := some "e" }]

/-- The mapping `get_stream_details twoTierEnv twoTierStreams` returns:
the partnered entry carries no follower or video count, the unpartnered
entry carries both. -/
def twoTierResult : InfoMap :=
  [("alice",
    { user_id := "7", viewer_count := 500, title := "t", thumbnail := "u",
      started := "d", display := "alice", broadcaster_type? := some "partner",
      channel_views? := some 9 }),
   ("bob",
    { user_id := "8", viewer_count := 300, title := "s", thumbnail := "v",
      started := "e", display := "bob", broadcaster_type? := some "",
      channel_views? := some 3, followers? := some 42, videos? := some 2 })]

/-! ### Theorems -/

/-- C1: for any `/streams` response whose `"data"` array contains a stream
`s`, `get_top_streams` excludes `s` when `s.viewer_count ≤ 100` and
includes `s` when `100 < s.viewer_count`; in particular exactly 100
viewers is excluded and 101 viewers is included. -/
theorem get_top_streams_viewer_threshold (r : StreamsBody) (ds : List StreamJson)
    (hd : r.data? = some ds) (s : StreamJson) (hs : s ∈ ds) :
    ∃ out, get_top_streams (.ok r) = .ok out ∧
      (s.viewer_count ≤ 100 → s ∉ out) ∧
      (100 < s.viewer_count → s ∈ out) ∧
      (s.viewer_count = 100 → s ∉ out) ∧
      (s.viewer_count = 101 → s ∈ out) := by
  refine ⟨ds.filter (fun s => 100 < s.viewer_count), ?_, ?_, ?_, ?_, ?_⟩
  · simp [get_top_streams, hd]
  · intro hle hmem
    have := (List.mem_filter.mp hmem).2
    simp only [decide_eq_true_eq] at this
    omega
  · intro hgt
    exact List.mem_filter.mpr ⟨hs, by simpa using hgt⟩
  · intro h100 hmem
    have := (List.mem_filter.mp hmem).2
    simp [h100] at this
  · intro h101
    exact List.mem_filter.mpr ⟨hs, by simp [h101]⟩

/-- Witness for C1: a concrete response holding a 100-viewer stream and a
101-viewer stream; the first is excluded and the second included. -/
theorem get_top_streams_viewer_threshold_witness :
    (boundaryBody.data? = some [stream100, stream101]) ∧
    (∃ out, get_top_streams (.ok boundaryBody) = .ok out ∧
      (stream100.viewer_count ≤ 100 → stream100 ∉ out) ∧
      (100 < stream100.viewer_count → stream100 ∈ out) ∧
      (stream100.viewer_count = 100 → stream100 ∉ out) ∧
      (stream100.viewer_count = 101 → stream100 ∈ out)) ∧
    (∃ out, get_top_streams (.ok boundaryBody) = .ok out ∧
      (stream101.viewer_count ≤ 100 → stream101 ∉ out) ∧
      (100 < stream101.viewer_count → stream101 ∈ out) ∧
      (stream101.viewer_count = 100 → stream101 ∉ out) ∧
      (stream101.viewer_count = 101 → stream101 ∈ out)) := by
  refine ⟨rfl, ?_, ?_⟩
  · exact get_top_streams_viewer_threshold boundaryBody [stream100, stream101] rfl
      stream100 (by simp)
  · exact get_top_streams_viewer_threshold boundaryBody [stream100, stream101] rfl
      stream101 (by simp)

/-- C6: `get_top_streams` returns the empty list when the transport raises
an SSL (TLS) or connection error, and also when the response body lacks a
`"data"` key, instead of propagating the failure. -/
theorem get_top_streams_degrades_to_empty (e : PyExc)
    (he : e = PyExc.sslError ∨ e = PyExc.connectionError)
    (r : StreamsBody) (hr : r.data? = none) :
    get_top_streams (.error e) = .ok [] ∧ get_top_streams (.ok r) = .ok [] := by
  constructor
  · rcases he with h | h <;> simp [h, get_top_streams, caughtByTopStreams]
  · simp [get_top_streams, hr]

/-- Witness for C6: the SSL-error case and a concrete body with no
`"data"` key. -/
theorem get_top_streams_degrades_to_empty_witness :
    get_top_streams (.error PyExc.sslError) = .ok [] ∧
    get_top_streams (.ok ⟨none⟩) = .ok [] :=
  get_top_streams_degrades_to_empty PyExc.sslError (Or.inl rfl) ⟨none⟩ rfl

/-- C10: on the success path, the list `get_top_streams` returns is an
order-preserving subsequence (`List.Sublist`) of the response's `"data"`
array: surviving stream records are kept verbatim, in order, without
duplication. -/
theorem get_top_streams_sublist (r : StreamsBody) (ds : List StreamJson)
    (hd : r.data? = some ds) :
    ∃ out, get_top_streams (.ok r) = .ok out ∧ List.Sublist out ds := by
  refine ⟨ds.filter (fun s => 100 < s.viewer_count), ?_, ?_⟩
  · simp [get_top_streams, hd]
  · exact List.filter_sublist ds

/-- Witness for C10: a concrete two-element `"data"` array; the filtered
output is a sublist of it. -/
theorem get_top_streams_sublist_witness :
    ∃ out,
      get_top_streams (.ok (⟨some [⟨some "a", some "1", 5, some "t", some "u", some "d"⟩,
        ⟨some "b", some "2", 500, some "t", some "u", some "d"⟩]⟩ : StreamsBody)) = .ok out ∧
      List.Sublist out [⟨some "a", some "1", 5, some "t", some "u", some "d"⟩,
        ⟨some "b", some "2", 500, some "t", some "u", some "d"⟩] :=
  get_top_streams_sublist _ _ rfl

/-- C4: whatever exception the underlying call raises,
`get_follower_count` returns exactly 10000000 and `get_video_count`
returns exactly 10000 (likewise when the body lacks its expected key, the
other exception source inside the `try`), and on every input both
operations return a value rather than propagate an exception. -/
theorem count_lookups_sentinel_on_failure (e : PyExc)
    (rf : Except PyExc FollowsBody) (rv : Except PyExc VideosBody) :
    get_follower_count (.error e) = .ok 10000000 ∧
    get_video_count (.error e) = .ok 10000 ∧
    get_follower_count (.ok ⟨none⟩) = .ok 10000000 ∧
    get_video_count (.ok ⟨none⟩) = .ok 10000 ∧
    (∃ n, get_follower_count rf = .ok n) ∧
    (∃ n, get_video_count rv = .ok n) := by
  refine ⟨rfl, rfl, rfl, rfl, ?_, ?_⟩
  · unfold get_follower_count
    cases follower_request rf <;> exact ⟨_, rfl⟩
  · unfold get_video_count
    cases video_request rv <;> exact ⟨_, rfl⟩

/-- C5 (amended): any exception of the POST or its JSON decoding makes
`get_panel_links` return the empty list; but a successful response whose
body lacks the expected panel structure is read outside the `try` block,
so it raises rather than returning empty. -/
theorem get_panel_links_error_handling (findUrls : String → List String)
    (e : PyExc) (b : PanelsBody) (hb : b.panels? = none) :
    get_panel_links findUrls (.error e) = .ok [] ∧
    get_panel_links findUrls (.ok b) = .error PyExc.keyError := by
  constructor
  · rfl
  · simp [get_panel_links, hb]

/-- Witness for C5 (amended): concrete transport failure and concrete
structureless body. -/
theorem get_panel_links_error_handling_witness :
    ((⟨none⟩ : PanelsBody).panels? = none) ∧
    get_panel_links (fun _ => []) (.error PyExc.timeout) = .ok [] ∧
    get_panel_links (fun _ => []) (.ok ⟨none⟩) = .error PyExc.keyError := by
  refine ⟨rfl, get_panel_links_error_handling (fun _ => []) PyExc.timeout ⟨none⟩ rfl⟩

/-- Counterexample to C5 as stated: on a successful HTTP response whose
body lacks the expected panel structure, `get_panel_links` propagates a
`KeyError` instead of returning an empty collection. -/
theorem get_panel_links_shape_error_cex :
    get_panel_links (fun _ => []) (.ok ⟨none⟩) = .error PyExc.keyError ∧
    get_panel_links (fun _ => []) (.ok ⟨none⟩) ≠ .ok [] := by
  exact ⟨rfl, by simp [get_panel_links]⟩

/-- C9: for a successful panel response with one panel carrying a truthy
direct link `u` and a truthy description whose URL pattern matches are
`[u2, u3]`, `get_panel_links` returns a list whose members are exactly
`u`, `u2`, `u3` with no duplicates; and in general every successfully
returned list is duplicate-free. -/
theorem get_panel_links_collects_all (findUrls : String → List String)
    (u d u2 u3 : String) (hu : u ≠ "") (hd : d ≠ "") (hf : findUrls d = [u2, u3])
    (resp : Except PyExc PanelsBody) (L : List String) :
    (∃ out, get_panel_links findUrls (.ok ⟨some [⟨some u, some d⟩]⟩) = .ok out ∧
      (∀ x, x ∈ out ↔ (x = u ∨ x = u2 ∨ x = u3)) ∧ out.Nodup) ∧
    (get_panel_links findUrls resp = .ok L → L.Nodup) := by
  constructor
  · refine ⟨(collectLinks findUrls [⟨some u, some d⟩]).dedup, ?_, ?_, List.nodup_dedup _⟩
    · simp [get_panel_links]
    · intro x
      simp [collectLinks, panelLinks, hu, hd, hf, List.mem_dedup]
  · intro h
    cases resp with
    | error e =>
      simp only [get_panel_links, Except.ok.injEq] at h
      subst h
      exact List.nodup_nil
    | ok b =>
      cases hb : b.panels? with
      | none => simp [get_panel_links, hb] at h
      | some panels =>
        simp [get_panel_links, hb] at h
        rw [← h]
        exact List.nodup_dedup _

/-- Witness for C9: one panel with direct link `"a"` and a description
whose matcher yields `["c", "e"]`; all three are returned without
duplicates. -/
theorem get_panel_links_collects_all_witness :
    (("a" : String) ≠ "") ∧ (("b" : String) ≠ "") ∧
    ((fun _ : String => ["c", "e"]) "b" = ["c", "e"]) ∧
    ((∃ out, get_panel_links (fun _ => ["c", "e"]) (.ok ⟨some [⟨some "a", some "b"⟩]⟩) = .ok out ∧
      (∀ x, x ∈ out ↔ (x = "a" ∨ x = "c" ∨ x = "e")) ∧ out.Nodup) ∧
    (get_panel_links (fun _ => ["c", "e"]) (.error PyExc.timeout) = .ok ([] : List String) →
      ([] : List String).Nodup)) := by
  refine ⟨by decide, by decide, rfl, ?_⟩
  exact get_panel_links_collects_all (fun _ => ["c", "e"]) "a" "b" "c" "e"
    (by decide) (by decide) rfl (.error PyExc.timeout) []

/-- C7: with a stored non-empty token, if the validation body contains
`client_id` then `get_token` returns the stored token unchanged having
issued one validation call, no refresh call, and persisted nothing; if
validation fails, every successful run issued exactly one refresh call,
and when the refresh body carries a token that token is returned and
persisted. -/
theorem get_token_validate_then_refresh (env : TokenEnv) (t : String) (vb : ValidateBody)
    (ht : env.saved_token? = some t) (hne : t ≠ "") (hv : env.validateResp = .ok vb) :
    (vb.has_client_id = true →
      get_token env = .ok (.token t, ⟨1, 0, none⟩)) ∧
    (vb.has_client_id = false → ∀ b, env.tokenResp = .ok b →
      (∀ res eff, get_token env = .ok (res, eff) → eff.refresh_calls = 1) ∧
      (∀ tok, b.access_token? = some tok →
        get_token env = .ok (.token tok, ⟨1, 1, some tok⟩))) := by
  constructor
  · intro hc
    simp [get_token, ht, hne, hv, hc]
  · intro hc b hb
    constructor
    · intro res eff hr
      simp [get_token, ht, hne, hv, hc, refreshToken, hb] at hr
      cases ha : b.access_token? with
      | none =>
        simp [ha] at hr
        simp [← hr.2]
      | some tok =>
        simp [ha] at hr
        simp [← hr.2]
    · intro tok ha
      simp [get_token, ht, hne, hv, hc, refreshToken, hb, ha]

/-- Witness for C7: a valid stored token is returned with no refresh; an
invalid one leads to one refresh whose token is returned and persisted. -/
theorem get_token_validate_then_refresh_witness :
    ((TokenEnv.mk (some "tok") (.ok ⟨true⟩) (.ok ⟨some "new"⟩)).saved_token? = some "tok") ∧
    (("tok" : String) ≠ "") ∧
    (get_token (TokenEnv.mk (some "tok") (.ok ⟨true⟩) (.ok ⟨some "new"⟩)) =
      .ok (.token "tok", ⟨1, 0, none⟩)) ∧
    (get_token (TokenEnv.mk (some "tok") (.ok ⟨false⟩) (.ok ⟨some "new"⟩)) =
      .ok (.token "new", ⟨1, 1, some "new"⟩)) := by
  refine ⟨rfl, by decide, ?_, ?_⟩
  · exact (get_token_validate_then_refresh _ "tok" ⟨true⟩ rfl (by decide) rfl).1 rfl
  · exact ((get_token_validate_then_refresh _ "tok" ⟨false⟩ rfl (by decide) rfl).2
      rfl ⟨some "new"⟩ rfl).2 "new" rfl

/-- C8: whenever the refresh path is reached (no stored token, an empty
stored token, or a stored token whose validation body lacks `client_id`)
and the refresh response carries no `access_token`, `get_token` ends in
`sys.exit` with the diagnostic "Unable to generate access token", after
exactly one refresh call, persisting nothing. -/
theorem get_token_fatal_without_access_token (env : TokenEnv)
    (hreach : env.saved_token? = none ∨
      ∃ t, env.saved_token? = some t ∧
        (t = "" ∨ ∃ vb, env.validateResp = .ok vb ∧ vb.has_client_id = false))
    (hb : env.tokenResp = .ok ⟨none⟩) :
    ∃ eff, get_token env = .ok (.exit "Unable to generate access token", eff) ∧
      eff.refresh_calls = 1 ∧ eff.persisted? = none := by
  rcases hreach with h | ⟨t, ht, h⟩
  · exact ⟨⟨0, 1, none⟩, by simp [get_token, h, refreshToken, hb], rfl, rfl⟩
  · rcases h with h | ⟨vb, hv, hc⟩
    · exact ⟨⟨0, 1, none⟩, by simp [get_token, ht, h, refreshToken, hb], rfl, rfl⟩
    · by_cases hne : t = ""
      · exact ⟨⟨0, 1, none⟩, by simp [get_token, ht, hne, refreshToken, hb], rfl, rfl⟩
      · exact ⟨⟨1, 1, none⟩, by simp [get_token, ht, hne, hv, hc, refreshToken, hb], rfl, rfl⟩

/-- Witness for C8: no stored token and a refresh body without
`access_token` ends in the fatal exit. -/
theorem get_token_fatal_without_access_token_witness :
    ((TokenEnv.mk none (.ok ⟨false⟩) (.ok ⟨none⟩)).tokenResp = .ok ⟨none⟩) ∧
    ∃ eff, get_token (TokenEnv.mk none (.ok ⟨false⟩) (.ok ⟨none⟩)) =
      .ok (.exit "Unable to generate access token", eff) ∧
      eff.refresh_calls = 1 ∧ eff.persisted? = none :=
  ⟨rfl, get_token_fatal_without_access_token _ (Or.inl rfl) rfl⟩

/-- Looking up after an assignment: the assigned key reads the new value,
every other key is untouched. -/
theorem mapLookup_mapInsert (m : InfoMap) (k l : String) (v : StreamInfo) :
    mapLookup (mapInsert m k v) l = if k = l then some v else mapLookup m l := by
  induction m with
  | nil => simp [mapInsert, mapLookup]
  | cons p rest ih =>
    obtain ⟨k', v'⟩ := p
    by_cases hk : k' = k
    · subst hk
      by_cases hl : k' = l <;> simp [mapInsert, mapLookup, hl]
    · by_cases hl : k' = l
      · subst hl
        have hkl : ¬ (k = k') := fun h => hk h.symm
        simp [mapInsert, hk, mapLookup, hkl]
      · simp [mapInsert, hk, mapLookup, hl, ih]

/-- A successful `keyRead` means the key was present with that value. -/
theorem keyRead_ok {α : Type} {o : Option α} {a : α} (h : keyRead o = .ok a) :
    o = some a := by
  cases o with
  | none => simp [keyRead] at h
  | some x => simp [keyRead] at h; rw [h]

/-- Inversion of a successful `processUser` step: the record's fields were
present, its login matched an entry, and the entry was rewritten with the
broadcaster type and channel views attached — plus follower and video
counts exactly when the broadcaster type is the empty string. -/
theorem processUser_ok_cases (env : DetailsEnv) (m : InfoMap) (u : UserRec)
    (m' : InfoMap) (h : processUser env m u = .ok m') :
    ∃ login info btype views,
      u.login? = some login ∧ mapLookup m login = some info ∧
      u.broadcaster_type? = some btype ∧ u.view_count? = some views ∧
      ((btype = "" ∧ ∃ f v,
          m' = mapInsert m login
            { info with
                broadcaster_type? := some btype,
                channel_views? := some views,
                followers? := some f, videos? := some v }) ∨
       (btype ≠ "" ∧
          m' = mapInsert m login
            { info with
                broadcaster_type? := some btype,
                channel_views? := some views })) := by
  unfold processUser at h
  split at h
  · exact absurd h (by simp)
  next login hlogin =>
    split at h
    · exact absurd h (by simp)
    next info hinfo =>
      split at h
      · exact absurd h (by simp)
      next btype hbtype =>
        split at h
        · exact absurd h (by simp)
        next views hviews =>
          refine ⟨login, info, btype, views, keyRead_ok hlogin, keyRead_ok hinfo,
            keyRead_ok hbtype, keyRead_ok hviews, ?_⟩
          split at h
          next hb =>
            split at h
            · exact absurd h (by simp)
            next f hf =>
              split at h
              · exact absurd h (by simp)
              next v hv =>
                injection h with h2
                exact Or.inl ⟨hb, f, v, h2.symm⟩
          next hb =>
            injection h with h2
            exact Or.inr ⟨hb, h2.symm⟩

/-- A successful `processUser` step never adds or removes keys. -/
theorem processUser_ok_keys (env : DetailsEnv) (m : InfoMap) (u : UserRec)
    (m' : InfoMap) (h : processUser env m u = .ok m') (l : String) :
    mapLookup m' l = none ↔ mapLookup m l = none := by
  obtain ⟨login, info, btype, views, _, hi, _, _, hcases⟩ :=
    processUser_ok_cases env m u m' h
  have step : ∀ w : StreamInfo, mapLookup (mapInsert m login w) l = none ↔
      mapLookup m l = none := by
    intro w
    rw [mapLookup_mapInsert]
    by_cases he : login = l
    · subst he
      simp [hi]
    · simp [he]
  rcases hcases with ⟨_, f, v, hm⟩ | ⟨_, hm⟩ <;> rw [hm] <;> exact step _

/-- A malformed record — one missing its `login`, `broadcaster_type` or
`view_count` key — makes `processUser` raise a `KeyError`, whatever the
dictionary holds. -/
theorem processUser_error_of_malformed (env : DetailsEnv) (m : InfoMap) (u : UserRec)
    (h : u.login? = none ∨ u.broadcaster_type? = none ∨ u.view_count? = none) :
    ∃ e, processUser env m u = .error e := by
  rcases h with h | h | h
  · exact ⟨.keyError, by simp [processUser, h, keyRead]⟩
  · cases hl : u.login? with
    | none => exact ⟨.keyError, by simp [processUser, hl, keyRead]⟩
    | some l =>
      cases hm : mapLookup m l with
      | none => exact ⟨.keyError, by simp [processUser, hl, hm, keyRead]⟩
      | some info => exact ⟨.keyError, by simp [processUser, hl, hm, h, keyRead]⟩
  · cases hl : u.login? with
    | none => exact ⟨.keyError, by simp [processUser, hl, keyRead]⟩
    | some l =>
      cases hm : mapLookup m l with
      | none => exact ⟨.keyError, by simp [processUser, hl, hm, keyRead]⟩
      | some info =>
        cases hb : u.broadcaster_type? with
        | none => exact ⟨.keyError, by simp [processUser, hl, hm, hb, keyRead]⟩
        | some bt => exact ⟨.keyError, by simp [processUser, hl, hm, hb, h, keyRead]⟩

/-- If some record in the list is malformed (missing `login`,
`broadcaster_type` or `view_count`) or carries a login that matches no
key of the dictionary, the enrichment loop raises. -/
theorem processAll_error_of_bad_record (env : DetailsEnv) (recs : List UserRec) :
    ∀ m u, u ∈ recs →
      (u.login? = none ∨ u.broadcaster_type? = none ∨ u.view_count? = none ∨
        (∃ l, u.login? = some l ∧ mapLookup m l = none)) →
      ∃ e, processAll env m recs = .error e := by
  induction recs with
  | nil =>
    intro m u hu
    cases hu
  | cons u0 rest ih =>
    intro m u hu hbad
    rcases List.mem_cons.mp hu with rfl | hmem
    · have hfail : ∃ e, processUser env m u = .error e := by
        rcases hbad with h | h | h | ⟨l, hl, hm⟩
        · exact processUser_error_of_malformed env m u (Or.inl h)
        · exact processUser_error_of_malformed env m u (Or.inr (Or.inl h))
        · exact processUser_error_of_malformed env m u (Or.inr (Or.inr h))
        · exact ⟨.keyError, by simp [processUser, hl, keyRead, hm]⟩
      obtain ⟨e, he⟩ := hfail
      exact ⟨e, by simp [processAll, he]⟩
    · cases hp : processUser env m u0 with
      | error e => exact ⟨e, by simp [processAll, hp]⟩
      | ok m1 =>
        have hbad1 : u.login? = none ∨ u.broadcaster_type? = none ∨
            u.view_count? = none ∨ (∃ l, u.login? = some l ∧ mapLookup m1 l = none) := by
          rcases hbad with h | h | h | ⟨l, hl, hm⟩
          · exact Or.inl h
          · exact Or.inr (Or.inl h)
          · exact Or.inr (Or.inr (Or.inl h))
          · exact Or.inr (Or.inr (Or.inr
              ⟨l, hl, (processUser_ok_keys env m u0 m1 hp l).mpr hm⟩))
        obtain ⟨e, he⟩ := ih m1 u hmem hbad1
        exact ⟨e, by simp [processAll, hp, he]⟩

/-- C3 (amended): any exception inside the `try` block — a failing bulk
`/users` call, a response without a `"data"` key, a malformed record
(missing `login`, `broadcaster_type` or `view_count`), or a returned
record whose login matches no key of the initial mapping — makes
`get_stream_details` return the empty mapping, discarding partial work;
exceptions while building the initial mapping from the input streams are
outside the `try` and propagate instead. -/
theorem get_stream_details_empty_on_users_failure (env : DetailsEnv)
    (streams : List StreamJson) (m0 : InfoMap) (hb : buildInfo [] streams = .ok m0)
    (hfail : (∃ e, env.usersResp = .error e) ∨
      (∃ r, env.usersResp = .ok r ∧ r.data? = none) ∨
      (∃ r recs, env.usersResp = .ok r ∧ r.data? = some recs ∧
        ∃ u ∈ recs,
          (u.login? = none ∨ u.broadcaster_type? = none ∨ u.view_count? = none ∨
            (∃ l, u.login? = some l ∧ mapLookup m0 l = none)))) :
    get_stream_details env streams = .ok [] := by
  have hup : ∃ e, usersPhase env m0 = .error e := by
    rcases hfail with ⟨e, he⟩ | ⟨r, hr, hd⟩ | ⟨r, recs, hr, hd, u, hu, hbad⟩
    · exact ⟨e, by simp [usersPhase, he]⟩
    · exact ⟨.keyError, by simp [usersPhase, hr, hd, keyRead]⟩
    · obtain ⟨e, he⟩ := processAll_error_of_bad_record env recs m0 u hu hbad
      exact ⟨e, by simp [usersPhase, hr, hd, keyRead, he]⟩
  obtain ⟨e, he⟩ := hup
  simp [get_stream_details, hb, he]

/-- Witness for C3 (amended): a malformed user record (its `login` key
missing) inside the `try` yields the empty mapping, as does a concrete
transport failure of the bulk `/users` call. -/
theorem get_stream_details_empty_on_users_failure_witness :
    (buildInfo [] [dupStream] =
      .ok [("alice",
        { user_id := "7", viewer_count := 500, title := "t", thumbnail := "u",
          started := "d", display := "alice" })]) ∧
    ((⟨none, some "", some 1⟩ : UserRec).login? = none) ∧
    get_stream_details
      ⟨.ok ⟨some [⟨none, some "", some 1⟩]⟩, fun _ => .error .timeout,
        fun _ => .error .timeout⟩
      [dupStream] = .ok [] ∧
    (buildInfo [] ([] : List StreamJson) = .ok []) ∧
    get_stream_details
      ⟨.error .timeout, fun _ => .error .timeout, fun _ => .error .timeout⟩
      [] = .ok [] := by
  refine ⟨rfl, rfl, ?_, rfl, ?_⟩
  · exact get_stream_details_empty_on_users_failure _ [dupStream] _ rfl
      (Or.inr (Or.inr ⟨⟨some [⟨none, some "", some 1⟩]⟩, [⟨none, some "", some 1⟩],
        rfl, rfl, ⟨none, some "", some 1⟩, by simp, Or.inl rfl⟩))
  · exact get_stream_details_empty_on_users_failure _ [] [] rfl
      (Or.inl ⟨.timeout, rfl⟩)

/-- Counterexample to C3 as stated: a missing key in an input stream
record raises during the initial-mapping stage of `get_stream_details`,
which runs before the `try` block, so the exception propagates instead of
yielding the empty mapping. -/
theorem get_stream_details_step_one_cex :
    get_stream_details envIdle [badStream] = .error PyExc.keyError ∧
    get_stream_details envIdle [badStream] ≠ .ok [] := by
  refine ⟨rfl, fun h => ?_⟩
  rw [show get_stream_details envIdle [badStream] = .error PyExc.keyError from rfl] at h
  exact Except.noConfusion h

/-- A successful `initEntry` carries no broadcaster type, follower count
or video count yet. -/
theorem initEntry_ok_fresh (s : StreamJson) (kv : String × StreamInfo)
    (h : initEntry s = .ok kv) :
    kv.2.broadcaster_type? = none ∧ kv.2.followers? = none ∧ kv.2.videos? = none := by
  unfold initEntry at h
  split at h
  · exact absurd h (by simp)
  next name hname =>
    split at h
    · exact absurd h (by simp)
    next uid huid =>
      split at h
      · exact absurd h (by simp)
      next title htitle =>
        split at h
        · exact absurd h (by simp)
        next thumb hthumb =>
          split at h
          · exact absurd h (by simp)
          next started hstarted =>
            injection h with h2
            rw [← h2]
            exact ⟨rfl, rfl, rfl⟩

/-- Membership after an assignment: an entry of the new dictionary is the
assigned pair or an entry of the old one. -/
theorem mem_mapInsert (m : InfoMap) (k : String) (v : StreamInfo)
    (p : String × StreamInfo) (hp : p ∈ mapInsert m k v) :
    p = (k, v) ∨ p ∈ m := by
  induction m with
  | nil =>
    left
    simpa [mapInsert] using hp
  | cons q rest ih =>
    obtain ⟨k', v'⟩ := q
    by_cases hk : k' = k
    · subst hk
      rw [mapInsert, if_pos rfl] at hp
      rcases List.mem_cons.mp hp with h | h
      · exact Or.inl h
      · exact Or.inr (List.mem_cons_of_mem _ h)
    · rw [mapInsert, if_neg hk] at hp
      rcases List.mem_cons.mp hp with h | h
      · exact Or.inr (List.mem_cons.mpr (Or.inl h))
      · rcases ih h with h2 | h2
        · exact Or.inl h2
        · exact Or.inr (List.mem_cons_of_mem _ h2)

/-- A successful lookup exhibits a member of the dictionary. -/
theorem mapLookup_some_mem (m : InfoMap) (l : String) (i : StreamInfo)
    (h : mapLookup m l = some i) : (l, i) ∈ m := by
  induction m with
  | nil => simp [mapLookup] at h
  | cons q rest ih =>
    obtain ⟨k', v'⟩ := q
    by_cases hk : k' = l
    · subst hk
      rw [mapLookup, if_pos rfl] at h
      injection h with h2
      subst h2
      exact List.mem_cons_self _ _
    · rw [mapLookup, if_neg hk] at h
      exact List.mem_cons_of_mem _ (ih h)

/-- Every entry the initial-mapping stage produces is fresh: no
broadcaster type, follower count or video count attached. -/
theorem buildInfo_fresh (streams : List StreamJson) :
    ∀ m m0, (∀ p : String × StreamInfo, p ∈ m →
        p.2.broadcaster_type? = none ∧ p.2.followers? = none ∧ p.2.videos? = none) →
      buildInfo m streams = .ok m0 →
      ∀ p : String × StreamInfo, p ∈ m0 →
        p.2.broadcaster_type? = none ∧ p.2.followers? = none ∧ p.2.videos? = none := by
  induction streams with
  | nil =>
    intro m m0 hm h
    injection h with h2
    exact fun p hp => hm p (h2 ▸ hp)
  | cons s rest ih =>
    intro m m0 hm h
    unfold buildInfo at h
    split at h
    · exact absurd h (by simp)
    next kv he =>
      refine ih _ _ ?_ h
      intro p hp
      rcases mem_mapInsert _ _ _ _ hp with h2 | h2
      · rw [h2]
        exact initEntry_ok_fresh s kv he
      · exact hm p h2

/-- When the bulk `/users` call returns a body with a `"data"` array, the
users phase is exactly the enrichment loop over that array. -/
theorem usersPhase_eq (env : DetailsEnv) (r : UsersBody) (recs : List UserRec)
    (hu : env.usersResp = .ok r) (hr : r.data? = some recs) (m : InfoMap) :
    usersPhase env m = processAll env m recs := by
  simp [usersPhase, hu, hr, keyRead]

/-- The enrichment loop preserves the follower/video-iff-unpartnered
invariant, provided each login occurs at most once in the records and
every already-enriched key is matched by no remaining record. -/
theorem processAll_inv (env : DetailsEnv) (recs : List UserRec) :
    ∀ m m', (loginsOf recs).Nodup →
      (∀ p : String × StreamInfo, p ∈ m →
        ((p.2.followers?.isSome ↔ p.2.broadcaster_type? = some "") ∧
         (p.2.videos?.isSome ↔ p.2.broadcaster_type? = some "")) ∧
        (p.2.broadcaster_type?.isSome → p.1 ∉ loginsOf recs)) →
      processAll env m recs = .ok m' →
      ∀ p : String × StreamInfo, p ∈ m' →
        (p.2.followers?.isSome ↔ p.2.broadcaster_type? = some "") ∧
        (p.2.videos?.isSome ↔ p.2.broadcaster_type? = some "") := by
  induction recs with
  | nil =>
    intro m m' _ hm h p hp
    injection h with h2
    exact (hm p (h2 ▸ hp)).1
  | cons u rest ih =>
    intro m m' hnd hm h p hp
    cases hpu : processUser env m u with
    | error e =>
      rw [processAll, hpu] at h
      exact absurd h (by simp)
    | ok m1 =>
      rw [processAll, hpu] at h
      obtain ⟨login, info, btype, views, hl, hi, hbt, hv, hcases⟩ :=
        processUser_ok_cases env m u m1 hpu
      have hlogins : loginsOf (u :: rest) = login :: loginsOf rest := by
        simp [loginsOf, hl]
      rw [hlogins] at hnd hm
      have hnotin : login ∉ loginsOf rest := (List.nodup_cons.mp hnd).1
      have hndrest : (loginsOf rest).Nodup := (List.nodup_cons.mp hnd).2
      have hold := hm (login, info) (mapLookup_some_mem m login info hi)
      have hbnone : info.broadcaster_type? = none := by
        cases hbm : info.broadcaster_type? with
        | none => rfl
        | some b =>
          exact absurd (List.mem_cons_self _ _) (hold.2 (by simp [hbm]))
      have hfnone : info.followers? = none := by
        cases hfo : info.followers? with
        | none => rfl
        | some f0 =>
          have h1 := hold.1.1
          rw [hbnone, hfo] at h1
          simpa using h1.mp rfl
      have hvnone : info.videos? = none := by
        cases hvo : info.videos? with
        | none => rfl
        | some v0 =>
          have h1 := hold.1.2
          rw [hbnone, hvo] at h1
          simpa using h1.mp rfl
      refine ih m1 m' hndrest ?_ h p hp
      intro q hq
      rcases hcases with ⟨hb, f, v, hm1⟩ | ⟨hb, hm1⟩
      · rw [hm1] at hq
        rcases mem_mapInsert _ _ _ _ hq with h2 | h2
        · rw [h2]
          subst hb
          exact ⟨⟨by simp, by simp⟩, fun _ => hnotin⟩
        · have := hm q h2
          exact ⟨this.1, fun hs => fun hmem =>
            this.2 hs (List.mem_cons_of_mem _ hmem)⟩
      · rw [hm1] at hq
        rcases mem_mapInsert _ _ _ _ hq with h2 | h2
        · rw [h2]
          refine ⟨⟨by simp [hfnone, hb], by simp [hvnone, hb]⟩, fun _ => hnotin⟩
        · have := hm q h2
          exact ⟨this.1, fun hs => fun hmem =>
            this.2 hs (List.mem_cons_of_mem _ hmem)⟩

/-- C2 (amended): in every non-empty mapping `get_stream_details` returns
from a `/users` response whose records carry pairwise-distinct logins,
the follower-count and video-count fields of an entry are populated if
and only if that entry's broadcaster tier is the empty (unpartnered)
string.  (Without the distinctness proviso the invariant fails: a second
record for the same login overwrites the tier while the counts attached
by the first survive.) -/
theorem get_stream_details_enrichment_iff (env : DetailsEnv) (streams : List StreamJson)
    (r : UsersBody) (recs : List UserRec)
    (hu : env.usersResp = .ok r) (hr : r.data? = some recs)
    (hnd : (loginsOf recs).Nodup)
    (m : InfoMap) (hres : get_stream_details env streams = .ok m) (hne : m ≠ []) :
    ∀ p : String × StreamInfo, p ∈ m →
      (p.2.followers?.isSome ↔ p.2.broadcaster_type? = some "") ∧
      (p.2.videos?.isSome ↔ p.2.broadcaster_type? = some "") := by
  unfold get_stream_details at hres
  split at hres
  · exact absurd hres (by simp)
  next m0 hb =>
    rw [usersPhase_eq env r recs hu hr m0] at hres
    split at hres
    next e hup =>
      injection hres with h2
      exact absurd h2.symm hne
    next m2 hup =>
      injection hres with h2
      subst h2
      have hfresh := buildInfo_fresh streams [] m0 (fun p hp => by cases hp) hb
      refine processAll_inv env recs m0 m2 hnd ?_ hup
      intro p hp
      obtain ⟨h1, h2, h3⟩ := hfresh p hp
      exact ⟨⟨by simp [h1, h2], by simp [h1, h3]⟩, by simp [h1]⟩

/-- Witness for C2 (amended): one partnered and one unpartnered record
with distinct logins; the partnered entry has neither count populated,
the unpartnered entry has both. -/
theorem get_stream_details_enrichment_iff_witness :
    (twoTierEnv.usersResp = .ok ⟨some [⟨some "alice", some "partner", some 9⟩,
      ⟨some "bob", some "", some 3⟩]⟩) ∧
    (loginsOf [⟨some "alice", some "partner", some 9⟩,
      ⟨some "bob", some "", some 3⟩]).Nodup ∧
    (get_stream_details twoTierEnv twoTierStreams = .ok twoTierResult) ∧
    twoTierResult ≠ [] ∧
    (∀ p : String × StreamInfo, p ∈ twoTierResult →
      (p.2.followers?.isSome ↔ p.2.broadcaster_type? = some "") ∧
      (p.2.videos?.isSome ↔ p.2.broadcaster_type? = some "")) := by
  have hres : get_stream_details twoTierEnv twoTierStreams = .ok twoTierResult := rfl
  have hne : twoTierResult ≠ [] := by simp [twoTierResult]
  refine ⟨rfl, by decide, hres, hne, ?_⟩
  exact get_stream_details_enrichment_iff twoTierEnv twoTierStreams _ _ rfl rfl
    (by decide) twoTierResult hres hne

/-- Counterexample to C2 as stated: a `/users` response carrying the same
login twice — first unpartnered, then `"partner"` — yields a non-empty
mapping whose single entry has followers and videos populated although
its broadcaster tier is `"partner"`, not the empty string. -/
theorem get_stream_details_dup_login_cex :
    get_stream_details dupEnv [dupStream] = .ok [("alice", dupInfo)] ∧
    dupInfo.followers? = some 42 ∧
    dupInfo.videos? = some 2 ∧
    dupInfo.broadcaster_type? = some "partner" ∧
    ([("alice", dupInfo)] : InfoMap) ≠ [] := by
  refine ⟨rfl, rfl, rfl, rfl, by simp⟩
